import Mathlib

/-!
Verification development for the AI phone assistant's routing core
(`src/assistant/ai_router.py`, `src/assistant/phone_assistant.py`,
`src/assistant/claude_handler.py`, `src/assistant/ollama_handler.py`,
`src/assistant/gateway_handler.py`).

The Python code is shallowly embedded: pure helpers become Lean functions,
the stateful adapter/router methods become explicit state-passing functions,
and each network interaction is abstracted by an oracle describing the
provider's observable outcome (success text, timeout/error class).
-/

namespace PhoneAsst

/-! ## Python string primitives used by the router -/

/-- Whitespace characters recognised by Python's `str.strip` / `str.split`. -/
def isSpaceCh (c : Char) : Bool :=
  c == ' ' || c == '\t' || c == '\n' || c == '\r' || c == '\x0b' || c == '\x0c'

/-- ASCII word character, as matched by the regex class `\w` (case already lowered). -/
def isWordCh (c : Char) : Bool :=
  (('a' ≤ c && c ≤ 'z') || ('A' ≤ c && c ≤ 'Z') || ('0' ≤ c && c ≤ '9') || c == '_')

/-- ASCII lower-casing, as `str.lower` acts on the ASCII inputs of interest. -/
def lowerCh (c : Char) : Char :=
  if 'A' ≤ c && c ≤ 'Z' then Char.ofNat (c.toNat + 32) else c

def pyLower (l : List Char) : List Char := l.map lowerCh

/-- `str.strip()` on a character list. -/
def pyStrip (l : List Char) : List Char :=
  ((l.dropWhile isSpaceCh).reverse.dropWhile isSpaceCh).reverse

/-- `str.strip()` on a `String`. -/
def pyStripStr (s : String) : String := String.mk (pyStrip s.data)

/-- `len(s.split())`: number of maximal runs of non-whitespace characters. -/
def wordCountAux : List Char → Bool → Nat
  | [], _ => 0
  | c :: rest, inWord =>
    if isSpaceCh c then wordCountAux rest false
    else (if inWord then 0 else 1) + wordCountAux rest true

def wordCount (l : List Char) : Nat := wordCountAux l false

/-- Python `needle in haystack` substring test. -/
def containsSub (needle : List Char) : List Char → Bool
  | [] => needle.isEmpty
  | c :: rest => List.isPrefixOf needle (c :: rest) || containsSub needle rest

/-! ## A small regex engine covering the constructs of the router's patterns

The router's patterns only use literals, `\s`, `\w`, `*`, `+` (as `\w+`),
alternation, concatenation, the word boundary `\b` and the `^` anchor.
`re.search` semantics: an unanchored pattern may match starting at any
position; `^` restricts the match to position 0.  Matching is backtracking
with a continuation; `fuel` bounds the recursion depth for termination and
is chosen generously by `rsearch`. -/

inductive Rx where
  | eps
  | ch (c : Char)
  | ws
  | wd
  | bnd
  | cat (a b : Rx)
  | alt (a b : Rx)
  | star (a : Rx)
deriving DecidableEq

def Rx.size : Rx → Nat
  | .eps | .ch _ | .ws | .wd | .bnd => 1
  | .cat a b => a.size + b.size + 1
  | .alt a b => a.size + b.size + 1
  | .star a => a.size + 1

def isWordOpt : Option Char → Bool
  | some c => isWordCh c
  | none => false

def isWordHead : List Char → Bool
  | [] => false
  | c :: _ => isWordCh c

/-- Backtracking matcher.  `prev` is the character just before the current
position (for `\b`), `k` the continuation receiving the rest of the input. -/
def rmat : Nat → Rx → Option Char → List Char → (Option Char → List Char → Bool) → Bool
  | 0, _, _, _, _ => false
  | fuel + 1, r, prev, s, k =>
    match r with
    | .eps => k prev s
    | .ch c =>
      match s with
      | [] => false
      | x :: rest => x == c && k (some x) rest
    | .ws =>
      match s with
      | [] => false
      | x :: rest => isSpaceCh x && k (some x) rest
    | .wd =>
      match s with
      | [] => false
      | x :: rest => isWordCh x && k (some x) rest
    | .bnd => (isWordOpt prev != isWordHead s) && k prev s
    | .cat a b => rmat fuel a prev s (fun p' s' => rmat fuel b p' s' k)
    | .alt a b => rmat fuel a prev s k || rmat fuel b prev s k
    | .star a =>
      k prev s ||
        rmat fuel a prev s (fun p' s' =>
          decide (s'.length < s.length) && rmat fuel (.star a) p' s' k)

/-- A compiled pattern: the regex plus whether it begins with the `^` anchor. -/
structure RePat where
  anchored : Bool
  rx : Rx

def matchFrom (r : Rx) (prev : Option Char) (s : List Char) : Bool :=
  rmat ((s.length + 1) * (r.size + 2) + 1) r prev s (fun _ _ => true)

def searchAll (r : Rx) : Option Char → List Char → Bool
  | prev, s =>
    matchFrom r prev s ||
      match s with
      | [] => false
      | c :: rest => searchAll r (some c) rest

/-- `re.search(pattern, s)` as a boolean. -/
def rsearch (p : RePat) (s : List Char) : Bool :=
  if p.anchored then matchFrom p.rx none s else searchAll p.rx none s

/-! ### Pattern construction helpers -/

def lit (s : String) : Rx :=
  s.data.foldr (fun c acc => Rx.cat (Rx.ch c) acc) Rx.eps

def alts : List Rx → Rx
  | [] => Rx.eps
  | [r] => r
  | r :: rest => Rx.alt r (alts rest)

def seqs : List Rx → Rx
  | [] => Rx.eps
  | [r] => r
  | r :: rest => Rx.cat r (seqs rest)

/-- `\s*` -/
def wsStar : Rx := Rx.star Rx.ws

/-- `\w+` -/
def wdPlus : Rx := Rx.cat Rx.wd (Rx.star Rx.wd)

/-! ### The router's pattern lists (`AIRouter.__init__`) -/

/-- `self.simple_patterns` -/
def simple_patterns : List RePat :=
  [ -- r"^(hi|hello|hey|good\s*(morning|afternoon|evening)|greetings)\b"
    ⟨true, Rx.cat
      (alts [lit "hi", lit "hello", lit "hey",
             seqs [lit "good", wsStar, alts [lit "morning", lit "afternoon", lit "evening"]],
             lit "greetings"]) Rx.bnd⟩,
    -- r"^(yes|no|yeah|nope|sure|ok|okay|yep|nah)\b"
    ⟨true, Rx.cat
      (alts [lit "yes", lit "no", lit "yeah", lit "nope", lit "sure",
             lit "ok", lit "okay", lit "yep", lit "nah"]) Rx.bnd⟩,
    -- r"^(thanks|thank\s*you|bye|goodbye|see\s*you)\b"
    ⟨true, Rx.cat
      (alts [lit "thanks", seqs [lit "thank", wsStar, lit "you"], lit "bye",
             lit "goodbye", seqs [lit "see", wsStar, lit "you"]]) Rx.bnd⟩,
    -- r"^(what|who)\s*(is|are)\s*(your|the)\s*name"
    ⟨true, seqs [alts [lit "what", lit "who"], wsStar, alts [lit "is", lit "are"],
                 wsStar, alts [lit "your", lit "the"], wsStar, lit "name"]⟩,
    -- r"^how\s*are\s*you"
    ⟨true, seqs [lit "how", wsStar, lit "are", wsStar, lit "you"]⟩ ]

/-- `self.moderate_patterns` -/
def moderate_patterns : List RePat :=
  [ -- r"(status|update|check)\s*(on|for|of)"
    ⟨false, seqs [alts [lit "status", lit "update", lit "check"], wsStar,
                  alts [lit "on", lit "for", lit "of"]]⟩,
    -- r"(is\s*(my|the|it)\s*\w+\s*ready)"
    ⟨false, seqs [lit "is", wsStar, alts [lit "my", lit "the", lit "it"], wsStar,
                  wdPlus, wsStar, lit "ready"]⟩,
    -- r"(when|what\s*time|how\s*long)"
    ⟨false, alts [lit "when", seqs [lit "what", wsStar, lit "time"],
                  seqs [lit "how", wsStar, lit "long"]]⟩,
    -- r"(schedule|book|appointment|available)"
    ⟨false, alts [lit "schedule", lit "book", lit "appointment", lit "available"]⟩,
    -- r"(price|cost|how\s*much)"
    ⟨false, alts [lit "price", lit "cost", seqs [lit "how", wsStar, lit "much"]]⟩,
    -- r"(hours|open|close|location|address)"
    ⟨false, alts [lit "hours", lit "open", lit "close", lit "location", lit "address"]⟩ ]

/-- `self.complex_patterns` -/
def complex_patterns : List RePat :=
  [ -- r"(explain|describe|tell\s*me\s*(about|more)|elaborate)"
    ⟨false, alts [lit "explain", lit "describe",
                  seqs [lit "tell", wsStar, lit "me", wsStar, alts [lit "about", lit "more"]],
                  lit "elaborate"]⟩,
    -- r"(why|how\s*does|how\s*do\s*I|what\s*should\s*I)"
    ⟨false, alts [lit "why", seqs [lit "how", wsStar, lit "does"],
                  seqs [lit "how", wsStar, lit "do", wsStar, lit "i"],
                  seqs [lit "what", wsStar, lit "should", wsStar, lit "i"]]⟩,
    -- r"(compare|difference|between|versus|vs)"
    ⟨false, alts [lit "compare", lit "difference", lit "between", lit "versus", lit "vs"]⟩,
    -- r"(recommend|suggest|advice|opinion)"
    ⟨false, alts [lit "recommend", lit "suggest", lit "advice", lit "opinion"]⟩,
    -- r"(problem|issue|trouble|not\s*working|broken)"
    ⟨false, alts [lit "problem", lit "issue", lit "trouble",
                  seqs [lit "not", wsStar, lit "working"], lit "broken"]⟩,
    -- r"(multiple|several|many|list|all)"
    ⟨false, alts [lit "multiple", lit "several", lit "many", lit "list", lit "all"]⟩,
    -- r"(if|when|then|because|however|although)"
    ⟨false, alts [lit "if", lit "when", lit "then", lit "because",
                  lit "however", lit "although"]⟩ ]

/-- `self.appointment_keywords` -/
def appointment_keywords : List String :=
  ["appointment", "schedule", "book", "reserve", "cancel", "reschedule",
   "change", "available", "slot", "time", "date", "calendar"]

def matchesAny (ps : List RePat) (s : List Char) : Bool :=
  ps.any (fun p => rsearch p s)

/-! ## Query classifier (`AIRouter.analyze_query`, `AIRouter.is_appointment_query`) -/

inductive QueryComplexity where
  | SIMPLE
  | MODERATE
  | COMPLEX
deriving DecidableEq

/-- `query.lower().strip()` -/
def normQ (q : String) : List Char := pyStrip (pyLower q.data)

def matchesSimple (q : String) : Bool := matchesAny simple_patterns (normQ q)
def matchesModerate (q : String) : Bool := matchesAny moderate_patterns (normQ q)
def matchesComplex (q : String) : Bool := matchesAny complex_patterns (normQ q)

/-- `AIRouter.analyze_query` -/
def analyze_query (q : String) : QueryComplexity :=
  if wordCount (normQ q) ≤ 3 ∧ matchesSimple q = true then .SIMPLE
  else if matchesComplex q = true then .COMPLEX
  else if matchesModerate q = true then .MODERATE
  else if matchesSimple q = true then .SIMPLE
  else if wordCount (normQ q) > 15 then .COMPLEX
  else if wordCount (normQ q) > 8 then .MODERATE
  else .MODERATE

/-- `AIRouter.is_appointment_query` -/
def is_appointment_query (q : String) : Bool :=
  appointment_keywords.any (fun kw => containsSub kw.data (pyLower q.data))

/-! ## Conversation transcripts and backend adapters -/

inductive Role where
  | user
  | assistant
deriving DecidableEq

structure Msg where
  role : Role
  content : String
deriving DecidableEq

abbrev History := List Msg

/-- `MAX_CONVERSATION_LENGTH` in `claude_handler.py`. -/
def MAX_CONVERSATION_LENGTH : Nat := 50

/-- Observable outcome of one Anthropic API call: the texts of the returned
content blocks on success, or the exception class raised. -/
inductive ClaudeOutcome where
  | ok (contents : List String)
  | rateLimit
  | connErr
  | apiErr
  | exn
deriving DecidableEq

/-- Observable outcome of one Ollama / AI-Gateway HTTP call: the extracted
response content on success (the code substitutes `""` for a missing field),
or any timeout/exception, which the handler swallows identically. -/
inductive NetOutcome where
  | ok (content : String)
  | fail
deriving DecidableEq

/-- `ClaudeHandler._trim_conversation_history` -/
def trimHistory (h : History) : History :=
  if h.length > MAX_CONVERSATION_LENGTH then h.drop (h.length - MAX_CONVERSATION_LENGTH)
  else h

/-- `ClaudeHandler._rollback_user_message` -/
def rollbackUserMessage (h : History) : History :=
  match h.getLast? with
  | some m => if m.role = .user then h.dropLast else h
  | none => h

def didntCatchText : String := "I didn't catch that. Could you please repeat?"

def claudeEmptyRespText : String :=
  "I'm sorry, I didn't generate a proper response. Could you please repeat?"

def claudeTroubleText : String :=
  "I apologize, but I'm having trouble processing that. Could you please repeat?"

/-- `ClaudeHandler.generate_response`: state-passing form, the provider call
abstracted by `out`.  Returns the text delivered to the caller and the
handler's conversation history afterwards. -/
def claudeGenerate (hist : History) (userMessage : String) (out : ClaudeOutcome) :
    String × History :=
  if pyStripStr userMessage = "" then (didntCatchText, hist)
  else
    let h1 := trimHistory (hist ++ [⟨.user, pyStripStr userMessage⟩])
    match out with
    | .ok contents =>
      let amsg :=
        match contents with
        | [] => claudeEmptyRespText
        | t :: _ => t
      (amsg, h1 ++ [⟨.assistant, amsg⟩])
    | .rateLimit =>
      ("I'm currently experiencing high demand. Please try again in a moment.",
       rollbackUserMessage h1)
    | .connErr => ("I'm having connection issues. Please try again.", rollbackUserMessage h1)
    | .apiErr => (claudeTroubleText, rollbackUserMessage h1)
    | .exn => (claudeTroubleText, rollbackUserMessage h1)

/-- `OllamaHandler.generate_response`: appends the user turn unconditionally,
then either records and returns the provider's content, or swallows the
failure and returns `""` with the dangling user turn retained. -/
def ollamaGenerate (hist : History) (userMessage : String) (out : NetOutcome) :
    String × History :=
  let h1 := hist ++ [⟨.user, userMessage⟩]
  match out with
  | .ok content => (content, h1 ++ [⟨.assistant, content⟩])
  | .fail => ("", h1)

/-- `GatewayHandler.generate_response`: identical shape to the Ollama adapter. -/
def gatewayGenerate (hist : History) (userMessage : String) (out : NetOutcome) :
    String × History :=
  let h1 := hist ++ [⟨.user, userMessage⟩]
  match out with
  | .ok content => (content, h1 ++ [⟨.assistant, content⟩])
  | .fail => ("", h1)

def noHistoryText : String := "No conversation history."

def unableSummaryText : String := "Unable to generate summary."

/-- `OllamaHandler.get_conversation_summary`; the boolean records whether a
provider request was issued. -/
def ollamaSummary (hist : History) (out : NetOutcome) : String × Bool :=
  if hist.isEmpty then (noHistoryText, false)
  else
    match out with
    | .ok content => (content, true)
    | .fail => (unableSummaryText, true)

/-- `GatewayHandler.get_conversation_summary` -/
def gatewaySummary (hist : History) (out : NetOutcome) : String × Bool :=
  if hist.isEmpty then (noHistoryText, false)
  else
    match out with
    | .ok content => (content, true)
    | .fail => (unableSummaryText, true)

/-- `ClaudeHandler.get_conversation_summary` -/
def claudeSummary (hist : History) (out : ClaudeOutcome) : String × Bool :=
  if hist.isEmpty then (noHistoryText, false)
  else
    match out with
    | .ok [] => (unableSummaryText, true)
    | .ok (t :: _) => (t, true)
    | _ => (unableSummaryText, true)

/-! ## Router data model (`ai_router.py`) -/

inductive BackendType where
  | OLLAMA_FAST
  | OLLAMA_SMART
  | OLLAMA_CHAT
  | CLAUDE
  | GATEWAY_FAST
  | GATEWAY_SMART
  | HYBRID
  | HYBRID_EDGE
deriving DecidableEq

/-- `BackendType(...).value` -/
def BackendType.value : BackendType → String
  | .OLLAMA_FAST => "ollama_fast"
  | .OLLAMA_SMART => "ollama_smart"
  | .OLLAMA_CHAT => "ollama_chat"
  | .CLAUDE => "claude"
  | .GATEWAY_FAST => "gateway_fast"
  | .GATEWAY_SMART => "gateway_smart"
  | .HYBRID => "hybrid"
  | .HYBRID_EDGE => "hybrid_edge"

structure RoutingDecision where
  backend : BackendType
  model : Option String
  reason : String
  complexity : QueryComplexity
deriving DecidableEq

/-- The router's mutable view: each configured handler carries its
conversation history; `none` means the handler was not configured. -/
structure AIRouter where
  ollama : Option History
  claude : Option History
  gateway : Option History
  prefer_local : Bool
  prefer_edge : Bool
deriving DecidableEq

/-- Health-probe outcomes for one `check_backend_availability` round
(`check_health_sync` results; Claude needs no probe). -/
structure HealthOracle where
  ollamaHealthy : Bool
  gatewayHealthy : Bool
deriving DecidableEq

def ollamaUp (r : AIRouter) (o : HealthOracle) : Bool := r.ollama.isSome && o.ollamaHealthy

/-- Claude availability is `bool(self.claude.client)`, true whenever configured. -/
def claudeUp (r : AIRouter) : Bool := r.claude.isSome

def gatewayUp (r : AIRouter) (o : HealthOracle) : Bool := r.gateway.isSome && o.gatewayHealthy

/-- `AIRouter._select_ollama_model` -/
def select_ollama_model : QueryComplexity → String
  | .SIMPLE => "quick-responder:latest"
  | .MODERATE => "cyberque-chat:latest"
  | .COMPLEX => "llama3.3:70b"

/-- `AIRouter._select_gateway_model` -/
def select_gateway_model : QueryComplexity → String
  | .SIMPLE => "llama-3.2-1b"
  | .MODERATE => "llama-3.1-8b"
  | .COMPLEX => "llama-3.3-70b"

/-- `AIRouter.route` -/
def route (r : AIRouter) (o : HealthOracle) (q : String) : RoutingDecision :=
  let complexity := analyze_query q
  let is_appointment := is_appointment_query q
  if r.prefer_edge = true ∧ gatewayUp r o = true ∧ complexity = .SIMPLE then
    ⟨.GATEWAY_FAST, some "llama-3.2-1b",
     "Simple query, using edge AI Gateway for low latency", complexity⟩
  else if gatewayUp r o = true ∧ ollamaUp r o = false ∧ claudeUp r = false then
    ⟨if complexity = .SIMPLE then .GATEWAY_FAST else .GATEWAY_SMART,
     some (select_gateway_model complexity), "Only AI Gateway available", complexity⟩
  else if ollamaUp r o = true ∧ claudeUp r = false ∧ gatewayUp r o = false then
    ⟨if complexity = .SIMPLE then .OLLAMA_FAST else .OLLAMA_CHAT,
     some (select_ollama_model complexity), "Only Ollama available", complexity⟩
  else if claudeUp r = true ∧ ollamaUp r o = false ∧ gatewayUp r o = false then
    ⟨.CLAUDE, none, "Only Claude available", complexity⟩
  else if ollamaUp r o = false ∧ claudeUp r = false ∧ gatewayUp r o = false then
    ⟨.CLAUDE, none, "No backends confirmed available, trying Claude", complexity⟩
  else if complexity = .SIMPLE then
    ⟨.OLLAMA_FAST, some "quick-responder:latest",
     "Simple query, using fast local model", complexity⟩
  else if complexity = .MODERATE then
    if is_appointment = true then
      ⟨.OLLAMA_CHAT, some "cyberque-chat:latest",
       "Appointment query, using custom chat model", complexity⟩
    else if r.prefer_local = true then
      ⟨.OLLAMA_CHAT, some "cyberque-chat:latest",
       "Moderate query, preferring local model", complexity⟩
    else ⟨.CLAUDE, none, "Moderate query, using Claude for quality", complexity⟩
  else if r.prefer_local = true then
    ⟨.HYBRID, some "llama3.3:70b",
     "Complex query, trying local smart model with Claude fallback", complexity⟩
  else ⟨.CLAUDE, none, "Complex query, using Claude for best quality", complexity⟩

/-! ## `AIRouter.generate_response` -/

/-- Which call site produced the text finally returned by the router
(`apologyP` when the fixed apology was substituted). -/
inductive Producer where
  | ollamaP
  | claudeP
  | gatewayP
  | apologyP
deriving DecidableEq

/-- Provider outcomes for the (at most two) adapter calls one
`generate_response` invocation can make.  `oll1`/`gw1`/`cl1` is the primary
call on the respective adapter; `cl2` the Claude fallback call (hybrid
fallback or except-block retry — at most one of the two ever runs); `oll2`
the Ollama fallback of the `HYBRID_EDGE` branch. -/
structure GenOutcomes where
  oll1 : NetOutcome
  gw1 : NetOutcome
  cl1 : ClaudeOutcome
  cl2 : ClaudeOutcome
  oll2 : NetOutcome
deriving DecidableEq

/-- Intermediate state at the end of the `try:` block of
`generate_response`: the current `response` value, the current decision, the
adapter states, which call produced `resp`, and whether an exception escaped
the block (`raised`).  In the code the only raising calls are attribute
accesses on an unconfigured (`None`) handler; the handlers themselves
swallow all their exceptions. -/
structure TryResult where
  resp : String
  dec : RoutingDecision
  st : AIRouter
  prod : Producer
  raised : Bool
deriving DecidableEq

def apologyText : String :=
  "I apologize, but I'm having trouble processing that. Could you please try again?"

/-- The three `OLLAMA_*` branches of the dispatch. -/
def ollamaBranch (r : AIRouter) (q : String) (o1 : NetOutcome) (dec : RoutingDecision) :
    TryResult :=
  match r.ollama with
  | none => ⟨"", dec, r, .apologyP, true⟩
  | some h =>
    let res := ollamaGenerate h q o1
    ⟨res.1, dec, { r with ollama := some res.2 }, .ollamaP, false⟩

/-- The `CLAUDE` branch of the dispatch. -/
def claudeBranch (r : AIRouter) (q : String) (c1 : ClaudeOutcome) (dec : RoutingDecision) :
    TryResult :=
  match r.claude with
  | none => ⟨"", dec, r, .apologyP, true⟩
  | some h =>
    let res := claudeGenerate h q c1
    ⟨res.1, dec, { r with claude := some res.2 }, .claudeP, false⟩

/-- The two `GATEWAY_*` branches of the dispatch. -/
def gatewayBranch (r : AIRouter) (q : String) (g1 : NetOutcome) (dec : RoutingDecision) :
    TryResult :=
  match r.gateway with
  | none => ⟨"", dec, r, .apologyP, true⟩
  | some h =>
    let res := gatewayGenerate h q g1
    ⟨res.1, dec, { r with gateway := some res.2 }, .gatewayP, false⟩

/-- The `HYBRID` branch: Ollama first; on empty/short output fall back to
Claude and replace the decision. -/
def hybridBranch (r : AIRouter) (q : String) (outs : GenOutcomes) (dec : RoutingDecision) :
    TryResult :=
  match r.ollama with
  | none => ⟨"", dec, r, .apologyP, true⟩
  | some h =>
    let res := ollamaGenerate h q outs.oll1
    let r1 : AIRouter := { r with ollama := some res.2 }
    if res.1 = "" ∨ (pyStripStr res.1).length < 5 then
      match r1.claude with
      | none => ⟨res.1, dec, r1, .ollamaP, true⟩
      | some hc =>
        let res2 := claudeGenerate hc q outs.cl2
        ⟨res2.1, ⟨.CLAUDE, none, "Hybrid fallback to Claude", dec.complexity⟩,
         { r1 with claude := some res2.2 }, .claudeP, false⟩
    else ⟨res.1, dec, r1, .ollamaP, false⟩

/-- The `HYBRID_EDGE` branch: Gateway first; on empty/short output fall back
to Ollama and replace the decision.  (`route` never emits `HYBRID_EDGE`, so
this branch is unreachable from `generate_response`.) -/
def hybridEdgeBranch (r : AIRouter) (q : String) (outs : GenOutcomes) (dec : RoutingDecision) :
    TryResult :=
  match r.gateway with
  | none => ⟨"", dec, r, .apologyP, true⟩
  | some h =>
    let res := gatewayGenerate h q outs.gw1
    let r1 : AIRouter := { r with gateway := some res.2 }
    if res.1 = "" ∨ (pyStripStr res.1).length < 5 then
      match r1.ollama with
      | none => ⟨res.1, dec, r1, .gatewayP, true⟩
      | some ho =>
        let res2 := ollamaGenerate ho q outs.oll2
        ⟨res2.1, ⟨.OLLAMA_CHAT, some "cyberque-chat:latest", "Hybrid fallback to Ollama",
          dec.complexity⟩, { r1 with ollama := some res2.2 }, .ollamaP, false⟩
    else ⟨res.1, dec, r1, .gatewayP, false⟩

/-- The `try:` block of `generate_response`, dispatching on the decision. -/
def dispatchOn : BackendType → AIRouter → String → GenOutcomes → RoutingDecision → TryResult
  | .OLLAMA_FAST, r, q, outs, dec => ollamaBranch r q outs.oll1 dec
  | .OLLAMA_CHAT, r, q, outs, dec => ollamaBranch r q outs.oll1 dec
  | .OLLAMA_SMART, r, q, outs, dec => ollamaBranch r q outs.oll1 dec
  | .CLAUDE, r, q, outs, dec => claudeBranch r q outs.cl1 dec
  | .GATEWAY_FAST, r, q, outs, dec => gatewayBranch r q outs.gw1 dec
  | .GATEWAY_SMART, r, q, outs, dec => gatewayBranch r q outs.gw1 dec
  | .HYBRID, r, q, outs, dec => hybridBranch r q outs dec
  | .HYBRID_EDGE, r, q, outs, dec => hybridEdgeBranch r q outs dec

def dispatch (r : AIRouter) (q : String) (outs : GenOutcomes) (dec : RoutingDecision) :
    TryResult :=
  dispatchOn dec.backend r q outs dec

/-- The `except Exception:` block of `generate_response`: retry once against
Claude when the failed backend was not Claude and Claude is configured. -/
def applyExcept (q : String) (outs : GenOutcomes) (t : TryResult) : TryResult :=
  if t.raised = true then
    if t.dec.backend ≠ .CLAUDE ∧ t.st.claude.isSome = true then
      match t.st.claude with
      | some hc =>
        let res := claudeGenerate hc q outs.cl2
        ⟨res.1,
         ⟨.CLAUDE, none, "Fallback to Claude after " ++ t.dec.backend.value ++ " error",
          t.dec.complexity⟩,
         { t.st with claude := some res.2 }, .claudeP, true⟩
      | none => t
    else t
  else t

/-- Result of one `generate_response` call: the returned pair plus the
updated adapter states and model-level observables. -/
structure GenResult where
  text : String
  decision : RoutingDecision
  st : AIRouter
  producer : Producer
  raised : Bool
deriving DecidableEq

/-- `AIRouter.generate_response` -/
def generate_response (r : AIRouter) (o : HealthOracle) (outs : GenOutcomes) (q : String) :
    GenResult :=
  let dec0 := route r o q
  let t := applyExcept q outs (dispatch r q outs dec0)
  if t.resp = "" then ⟨apologyText, t.dec, t.st, .apologyP, t.raised⟩
  else ⟨t.resp, t.dec, t.st, t.prod, t.raised⟩

/-- `AIRouter.reset_conversations` -/
def reset_conversations (r : AIRouter) : AIRouter :=
  { r with
    ollama := r.ollama.map (fun _ => ([] : History)),
    claude := r.claude.map (fun _ => ([] : History)),
    gateway := r.gateway.map (fun _ => ([] : History)) }

/-- Summary-call outcomes for `get_conversation_summary`. -/
structure SummaryOutcomes where
  oll : NetOutcome
  gw : NetOutcome
  cl : ClaudeOutcome
deriving DecidableEq

/-- `AIRouter.get_conversation_summary`; the boolean records whether any
backend request was issued. -/
def get_conversation_summary (r : AIRouter) (so : SummaryOutcomes) : String × Bool :=
  if r.ollama.elim false (fun h => !h.isEmpty) then ollamaSummary (r.ollama.getD []) so.oll
  else if r.gateway.elim false (fun h => !h.isEmpty) then gatewaySummary (r.gateway.getD []) so.gw
  else if r.claude.elim false (fun h => !h.isEmpty) then claudeSummary (r.claude.getD []) so.cl
  else (noHistoryText, false)

/-! ## `PhoneAssistant` statistics (`phone_assistant.py`) -/

structure Stats where
  total_queries : Nat
  ollama_fast : Nat
  ollama_chat : Nat
  ollama_smart : Nat
  claude : Nat
  hybrid_fallback : Nat
deriving DecidableEq

def Stats.init : Stats := ⟨0, 0, 0, 0, 0, 0⟩

/-- `PhoneAssistant._track_backend_usage` -/
def track_backend_usage (s : Stats) : BackendType → Stats
  | .OLLAMA_FAST => { s with ollama_fast := s.ollama_fast + 1 }
  | .OLLAMA_CHAT => { s with ollama_chat := s.ollama_chat + 1 }
  | .OLLAMA_SMART => { s with ollama_smart := s.ollama_smart + 1 }
  | .CLAUDE => { s with claude := s.claude + 1 }
  | .HYBRID => { s with hybrid_fallback := s.hybrid_fallback + 1 }
  | _ => s

/-- The statistics-tracking portion of `PhoneAssistant.process_speech`:
`total_queries` is bumped, then `_track_backend_usage(decision.backend)`. -/
def process_speech_stats (r : AIRouter) (o : HealthOracle) (outs : GenOutcomes)
    (q : String) (s : Stats) : Stats × GenResult :=
  let g := generate_response r o outs q
  (track_backend_usage { s with total_queries := s.total_queries + 1 } g.decision.backend, g)

end PhoneAsst

namespace PhoneAsst

/-! ## Classifier theorems -/

/-- C4: every utterance of at most 3 words (after lower-casing and
stripping) that matches one of the simple patterns is classified `SIMPLE` by
`analyze_query`, regardless of whether it also matches a complex pattern:
the short-input simple check runs before the complex-pattern check. -/
theorem C4_short_simple_short_circuit (q : String)
    (hwc : wordCount (normQ q) ≤ 3) (hs : matchesSimple q = true) :
    analyze_query q = .SIMPLE := by
  unfold analyze_query
  rw [if_pos ⟨hwc, hs⟩]

/-- C4 witness: "yes why" has 2 words, matches a simple pattern (and also
the complex pattern `(why|...)`), and is classified `SIMPLE`. -/
theorem C4_short_simple_short_circuit_witness :
    wordCount (normQ "yes why") ≤ 3 ∧ matchesSimple "yes why" = true ∧
      matchesComplex "yes why" = true ∧ analyze_query "yes why" = .SIMPLE :=
  ⟨by decide, by decide, by decide,
   C4_short_simple_short_circuit "yes why" (by decide) (by decide)⟩

/-- C5: an utterance matching any complex pattern is classified `COMPLEX`
whenever the ≤3-word simple short-circuit did not fire, whatever its length
and whatever moderate or simple patterns it also matches. -/
theorem C5_complex_priority (q : String) (hc : matchesComplex q = true)
    (hn : ¬(wordCount (normQ q) ≤ 3 ∧ matchesSimple q = true)) :
    analyze_query q = .COMPLEX := by
  unfold analyze_query
  rw [if_neg hn, if_pos hc]

/-- C5 witness: "when should we book the appointment" matches complex,
moderate and no short-circuit; it is classified `COMPLEX`. -/
theorem C5_complex_priority_witness :
    matchesComplex "when should we book the appointment" = true ∧
      matchesModerate "when should we book the appointment" = true ∧
      analyze_query "when should we book the appointment" = .COMPLEX :=
  ⟨by decide, by decide,
   C5_complex_priority "when should we book the appointment" (by decide) (by decide)⟩

/-- C10: `analyze_query` answers `SIMPLE` only when a simple pattern
actually matched the normalized text, and when no simple, moderate or
complex pattern matches, the length fallback yields `MODERATE` or
`COMPLEX`, never `SIMPLE`. -/
theorem C10_simple_only_from_simple_match (q : String) :
    (analyze_query q = .SIMPLE → matchesSimple q = true) ∧
      (matchesSimple q = false → matchesModerate q = false → matchesComplex q = false →
        analyze_query q ≠ .SIMPLE ∧
          (analyze_query q = .MODERATE ∨ analyze_query q = .COMPLEX)) := by
  constructor
  · intro h
    unfold analyze_query at h
    split_ifs at h <;> simp_all
  · intro h1 h2 h3
    unfold analyze_query
    split_ifs <;> simp_all

/-- C10 witness: "the cat sat on the mat" matches no pattern and falls back
to `MODERATE`, not `SIMPLE`. -/
theorem C10_simple_only_from_simple_match_witness :
    analyze_query "the cat sat on the mat" ≠ .SIMPLE ∧
      (analyze_query "the cat sat on the mat" = .MODERATE ∨
        analyze_query "the cat sat on the mat" = .COMPLEX) :=
  (C10_simple_only_from_simple_match "the cat sat on the mat").2
    (by decide) (by decide) (by decide)

/-! ## Adapter transcript lemmas -/

theorem trimHistory_length (l : History) :
    (trimHistory l).length = min l.length MAX_CONVERSATION_LENGTH := by
  unfold trimHistory
  split_ifs with h
  · simp only [List.length_drop]
    omega
  · omega

theorem trimHistory_suffix (l : History) : trimHistory l <:+ l := by
  unfold trimHistory
  split_ifs with h
  · exact List.drop_suffix _ _
  · exact List.suffix_refl _

theorem suffix_append_single {l₁ l₂ : History} (h : l₁ <:+ l₂) (x : Msg) :
    l₁ ++ [x] <:+ l₂ ++ [x] := by
  obtain ⟨p, hp⟩ := h
  exact ⟨p, by rw [← hp, List.append_assoc]⟩

theorem rollback_length_le (l : History) :
    (rollbackUserMessage l).length ≤ l.length := by
  unfold rollbackUserMessage
  cases h : l.getLast? with
  | none => simp
  | some m =>
    dsimp only
    split_ifs
    · simp [List.length_dropLast]
    · simp

/-- C7 (amended): only the Claude adapter trims its transcript.  Its
transcript stays at or under the configured maximum plus the newest
exchange (`MAX_CONVERSATION_LENGTH + 1` entries) from any in-bound state,
and on success the retained transcript is a suffix of the old transcript
plus the newest exchange (oldest-first eviction).  The Ollama and Gateway
adapters never trim: every call strictly grows their transcripts. -/
theorem C7_trim_bound_amended :
    (∀ (h : History) (msg : String) (out : ClaudeOutcome),
        h.length ≤ MAX_CONVERSATION_LENGTH + 1 →
        (claudeGenerate h msg out).2.length ≤ MAX_CONVERSATION_LENGTH + 1) ∧
      (∀ (h : History) (msg : String) (cs : List String), pyStripStr msg ≠ "" →
        (claudeGenerate h msg (.ok cs)).2 <:+
          (h ++ [⟨.user, pyStripStr msg⟩] ++
            [⟨.assistant, (claudeGenerate h msg (.ok cs)).1⟩])) ∧
      (∀ (h : History) (msg : String) (out : NetOutcome),
        h.length + 1 ≤ (ollamaGenerate h msg out).2.length) ∧
      (∀ (h : History) (msg : String) (out : NetOutcome),
        h.length + 1 ≤ (gatewayGenerate h msg out).2.length) := by
  refine ⟨?_, ?_, ?_, ?_⟩
  · intro h msg out hb
    unfold claudeGenerate
    split_ifs with hblank
    · exact hb
    · have ht := trimHistory_length (h ++ [⟨.user, pyStripStr msg⟩])
      have hr := rollback_length_le (trimHistory (h ++ [⟨.user, pyStripStr msg⟩]))
      cases out <;> simp_all <;> omega
  · intro h msg cs hne
    unfold claudeGenerate
    rw [if_neg hne]
    dsimp only
    exact suffix_append_single (trimHistory_suffix (h ++ [⟨.user, pyStripStr msg⟩])) _
  · intro h msg out
    cases out <;> simp [ollamaGenerate]
  · intro h msg out
    cases out <;> simp [gatewayGenerate]

/-- C7 witness: a concrete Claude call stays within the bound and keeps a
suffix of the appended transcript. -/
theorem C7_trim_bound_amended_witness :
    (claudeGenerate [] "hello" (.ok ["Hi"])).2.length ≤ MAX_CONVERSATION_LENGTH + 1 ∧
      (claudeGenerate [] "hello" (.ok ["Hi"])).2 <:+
        ([] ++ [⟨.user, pyStripStr "hello"⟩] ++
          [⟨.assistant, (claudeGenerate [] "hello" (.ok ["Hi"])).1⟩]) :=
  ⟨C7_trim_bound_amended.1 [] "hello" (.ok ["Hi"]) (by decide),
   C7_trim_bound_amended.2.1 [] "hello" ["Hi"] (by decide)⟩

/-- 27 successful Ollama exchanges starting from an empty transcript. -/
def ollamaIter : Nat → History
  | 0 => []
  | n + 1 => (ollamaGenerate (ollamaIter n) "hello" (.ok "world")).2

/-- 27 successful Gateway exchanges starting from an empty transcript. -/
def gatewayIter : Nat → History
  | 0 => []
  | n + 1 => (gatewayGenerate (gatewayIter n) "hello" (.ok "world")).2

/-- C7 counterexample: neither the Ollama nor the Gateway adapter trims, so
27 successful calls leave 54 retained turns on each, above the configured
maximum plus the newest exchange (50 + 2): the claimed bound fails for both
of those adapters. -/
theorem C7_counterexample :
    (ollamaIter 27).length = 54 ∧ MAX_CONVERSATION_LENGTH + 2 < (ollamaIter 27).length ∧
      (gatewayIter 27).length = 54 ∧
      MAX_CONVERSATION_LENGTH + 2 < (gatewayIter 27).length := by
  decide

/-- C8 (amended): only the Claude adapter validates blank input — it
returns the fixed text and leaves its transcript untouched without issuing
a request.  The Ollama and Gateway adapters append the blank user turn and
proceed with the provider call. -/
theorem C8_blank_input_amended :
    (∀ (h : History) (msg : String) (out : ClaudeOutcome), pyStripStr msg = "" →
        claudeGenerate h msg out = (didntCatchText, h)) ∧
      (∀ (h : History) (msg : String) (out : NetOutcome),
        (h ++ [⟨.user, msg⟩]) <+: (ollamaGenerate h msg out).2) ∧
      (∀ (h : History) (msg : String) (out : NetOutcome),
        (h ++ [⟨.user, msg⟩]) <+: (gatewayGenerate h msg out).2) := by
  refine ⟨?_, ?_, ?_⟩
  · intro h msg out hblank
    unfold claudeGenerate
    rw [if_pos hblank]
  · intro h msg out
    cases out <;> simp [ollamaGenerate]
  · intro h msg out
    cases out <;> simp [gatewayGenerate]

/-- C8 witness: Claude on the whitespace input returns the fixed text and
an unchanged transcript. -/
theorem C8_blank_input_amended_witness :
    claudeGenerate [⟨.user, "x"⟩] "   " .rateLimit = (didntCatchText, [⟨.user, "x"⟩]) :=
  C8_blank_input_amended.1 [⟨.user, "x"⟩] "   " .rateLimit (by decide)

/-- C8 counterexample: the Ollama adapter called with the whitespace-only
message returns the provider's text, not the "didn't catch that" text, and
its transcript grows from 0 to 2 entries. -/
theorem C8_counterexample :
    (ollamaGenerate [] "   " (.ok "Hello there")).1 = "Hello there" ∧
      (ollamaGenerate [] "   " (.ok "Hello there")).1 ≠ didntCatchText ∧
      (ollamaGenerate [] "   " (.ok "Hello there")).2.length = 2 := by
  decide

/-- C9: after `reset_conversations`, `get_conversation_summary` returns the
fixed "No conversation history." string and issues no backend request, for
every adapter configuration and every provider oracle. -/
theorem C9_reset_then_summary (r : AIRouter) (so : SummaryOutcomes) :
    get_conversation_summary (reset_conversations r) so = (noHistoryText, false) := by
  rcases r with ⟨ol, cl, gw, pl, pe⟩
  cases ol <;> cases cl <;> cases gw <;>
    simp [reset_conversations, get_conversation_summary]

/-! ## Facts about `route` -/

theorem route_backend_not_hybrid_edge (r : AIRouter) (o : HealthOracle) (q : String) :
    (route r o q).backend ≠ .HYBRID_EDGE ∧ (route r o q).backend ≠ .OLLAMA_SMART := by
  unfold route
  split_ifs <;> simp_all <;> split_ifs <;> simp_all

set_option maxHeartbeats 1000000 in
theorem route_hybrid_claude (r : AIRouter) (o : HealthOracle) (q : String)
    (hh : (route r o q).backend = .HYBRID) (hol : r.ollama = none) :
    r.claude.isSome = true := by
  rcases hc : r.claude with _ | c
  · exfalso
    have hcu : claudeUp r = false := by simp [claudeUp, hc]
    have hou : ollamaUp r o = false := by simp [ollamaUp, hol]
    unfold route at hh
    rcases hgu : gatewayUp r o <;>
      simp only [hcu, hou, hgu] at hh <;>
      split_ifs at hh <;> simp_all
  · rfl

theorem route_no_gateway (r : AIRouter) (o : HealthOracle) (q : String)
    (hgw : r.gateway = none) :
    (route r o q).backend ≠ .GATEWAY_FAST ∧ (route r o q).backend ≠ .GATEWAY_SMART := by
  unfold route
  split_ifs <;> simp_all [gatewayUp, hgw] <;> split_ifs <;> simp_all

/-! ## Facts about the dispatch of `generate_response` -/

theorem ollamaBranch_spec (r : AIRouter) (q : String) (o1 : NetOutcome)
    (dec : RoutingDecision) :
    (ollamaBranch r q o1 dec).dec = dec ∧
      (ollamaBranch r q o1 dec).st.claude = r.claude ∧
      ((ollamaBranch r q o1 dec).raised = true → (ollamaBranch r q o1 dec).resp = "") ∧
      ((ollamaBranch r q o1 dec).raised = false →
        (ollamaBranch r q o1 dec).prod = .ollamaP) := by
  rcases ho : r.ollama with _ | h <;> simp [ollamaBranch, ho]

theorem claudeBranch_spec (r : AIRouter) (q : String) (c1 : ClaudeOutcome)
    (dec : RoutingDecision) :
    (claudeBranch r q c1 dec).dec = dec ∧
      ((claudeBranch r q c1 dec).raised = true →
        (claudeBranch r q c1 dec).st.claude = r.claude ∧ (claudeBranch r q c1 dec).resp = "") ∧
      ((claudeBranch r q c1 dec).raised = false →
        (claudeBranch r q c1 dec).prod = .claudeP) := by
  rcases hc : r.claude with _ | h <;> simp [claudeBranch, hc]

theorem gatewayBranch_spec (r : AIRouter) (q : String) (g1 : NetOutcome)
    (dec : RoutingDecision) :
    (gatewayBranch r q g1 dec).dec = dec ∧
      (gatewayBranch r q g1 dec).st.claude = r.claude ∧
      ((gatewayBranch r q g1 dec).raised = true → (gatewayBranch r q g1 dec).resp = "") ∧
      ((gatewayBranch r q g1 dec).raised = false →
        (gatewayBranch r q g1 dec).prod = .gatewayP) := by
  rcases hg : r.gateway with _ | h <;> simp [gatewayBranch, hg]

theorem hybridBranch_spec (r : AIRouter) (q : String) (outs : GenOutcomes)
    (dec : RoutingDecision) :
    ((hybridBranch r q outs dec).raised = true →
        (hybridBranch r q outs dec).dec = dec ∧
          (hybridBranch r q outs dec).st.claude = r.claude ∧
          ((hybridBranch r q outs dec).resp = "" ∨
            ((hybridBranch r q outs dec).prod = .ollamaP ∧
              (hybridBranch r q outs dec).resp ≠ ""))) ∧
      ((hybridBranch r q outs dec).raised = false →
        ((hybridBranch r q outs dec).dec.backend = .CLAUDE ∧
            (hybridBranch r q outs dec).prod = .claudeP) ∨
          ((hybridBranch r q outs dec).dec = dec ∧
            (hybridBranch r q outs dec).prod = .ollamaP ∧
            (hybridBranch r q outs dec).resp ≠ "")) := by
  rcases r with ⟨ol, cl, gw, pl, pe⟩
  rcases ol with _ | h
  · simp [hybridBranch]
  · by_cases hs :
      ((ollamaGenerate h q outs.oll1).1 = "" ∨
        (pyStripStr (ollamaGenerate h q outs.oll1).1).length < 5)
    · rcases cl with _ | hc
      · have he : hybridBranch ⟨some h, none, gw, pl, pe⟩ q outs dec =
            ⟨(ollamaGenerate h q outs.oll1).1, dec,
              ⟨some (ollamaGenerate h q outs.oll1).2, none, gw, pl, pe⟩, .ollamaP, true⟩ := by
          dsimp only [hybridBranch]
          rw [if_pos hs]
        rw [he]
        constructor
        · intro _
          refine ⟨rfl, rfl, ?_⟩
          by_cases hr : (ollamaGenerate h q outs.oll1).1 = ""
          · exact Or.inl hr
          · exact Or.inr ⟨rfl, hr⟩
        · intro hcontra
          simp at hcontra
      · have he : hybridBranch ⟨some h, some hc, gw, pl, pe⟩ q outs dec =
            ⟨(claudeGenerate hc q outs.cl2).1,
              ⟨.CLAUDE, none, "Hybrid fallback to Claude", dec.complexity⟩,
              ⟨some (ollamaGenerate h q outs.oll1).2, some (claudeGenerate hc q outs.cl2).2,
                gw, pl, pe⟩, .claudeP, false⟩ := by
          dsimp only [hybridBranch]
          rw [if_pos hs]
        rw [he]
        constructor
        · intro hcontra
          simp at hcontra
        · intro _
          exact Or.inl ⟨rfl, rfl⟩
    · have he : hybridBranch ⟨some h, cl, gw, pl, pe⟩ q outs dec =
          ⟨(ollamaGenerate h q outs.oll1).1, dec,
            ⟨some (ollamaGenerate h q outs.oll1).2, cl, gw, pl, pe⟩, .ollamaP, false⟩ := by
        dsimp only [hybridBranch]
        rw [if_neg hs]
      rw [he]
      constructor
      · intro hcontra
        simp at hcontra
      · intro _
        exact Or.inr ⟨rfl, rfl, fun he2 => hs (Or.inl he2)⟩

/-- Combined behaviour of the `try:` block for any decision `route` can
produce (in particular not `HYBRID_EDGE`). -/
theorem dispatch_spec (r : AIRouter) (q : String) (outs : GenOutcomes)
    (dec : RoutingDecision) (t : TryResult) (ht : dispatch r q outs dec = t)
    (hne : dec.backend ≠ .HYBRID_EDGE) :
    (t.raised = true →
        t.dec = dec ∧ t.st.claude = r.claude ∧
          (t.resp = "" ∨
            (t.prod = .ollamaP ∧ t.resp ≠ "" ∧ t.dec.backend = .HYBRID))) ∧
      (t.raised = false →
        (t.dec = dec ∨ (t.dec.backend = .CLAUDE ∧ t.prod = .claudeP) ∨
            (t.dec.backend = .OLLAMA_CHAT ∧ t.prod = .ollamaP)) ∧
          (t.dec.backend = .HYBRID → t.prod = .ollamaP ∧ t.resp ≠ "") ∧
          (t.dec.backend = .CLAUDE → t.prod = .claudeP) ∧
          ((t.dec.backend = .OLLAMA_FAST ∨ t.dec.backend = .OLLAMA_CHAT ∨
              t.dec.backend = .OLLAMA_SMART) → t.prod = .ollamaP)) := by
  subst ht
  cases hb : dec.backend
  case OLLAMA_FAST | OLLAMA_CHAT | OLLAMA_SMART =>
    have hsp := ollamaBranch_spec r q outs.oll1 dec
    unfold dispatch
    rw [hb]
    dsimp only [dispatchOn]
    exact ⟨fun hr => ⟨hsp.1, hsp.2.1, Or.inl (hsp.2.2.1 hr)⟩,
           fun hr => ⟨Or.inl hsp.1, by simp_all, by simp_all, fun _ => hsp.2.2.2 hr⟩⟩
  case CLAUDE =>
    have hsp := claudeBranch_spec r q outs.cl1 dec
    unfold dispatch
    rw [hb]
    dsimp only [dispatchOn]
    exact ⟨fun hr => ⟨hsp.1, (hsp.2.1 hr).1, Or.inl (hsp.2.1 hr).2⟩,
           fun hr => ⟨Or.inl hsp.1, by simp_all, fun _ => hsp.2.2 hr, by simp_all⟩⟩
  case GATEWAY_FAST | GATEWAY_SMART =>
    have hsp := gatewayBranch_spec r q outs.gw1 dec
    unfold dispatch
    rw [hb]
    dsimp only [dispatchOn]
    exact ⟨fun hr => ⟨hsp.1, hsp.2.1, Or.inl (hsp.2.2.1 hr)⟩,
           fun hr => ⟨Or.inl hsp.1, by simp_all, by simp_all, by simp_all⟩⟩
  case HYBRID =>
    have hsp := hybridBranch_spec r q outs dec
    unfold dispatch
    rw [hb]
    dsimp only [dispatchOn]
    refine ⟨fun hr => ?_, fun hr => ?_⟩
    · obtain ⟨hd, hc, hdisj⟩ := hsp.1 hr
      refine ⟨hd, hc, ?_⟩
      rcases hdisj with he | ⟨hp, hne2⟩
      · exact Or.inl he
      · exact Or.inr ⟨hp, hne2, by rw [hd, hb]⟩
    rcases hsp.2 hr with hcl | hol
    · exact ⟨Or.inr (Or.inl hcl), by simp_all, fun _ => hcl.2, by simp_all⟩
    · refine ⟨Or.inl hol.1, ?_, ?_, ?_⟩
      · intro _
        exact ⟨hol.2.1, hol.2.2⟩
      · intro hcc
        rw [hol.1] at hcc
        rw [hb] at hcc
        exact absurd hcc (by simp)
      · intro _
        exact hol.2.1
  case HYBRID_EDGE => exact absurd hb hne

/-- Behaviour of the `except Exception:` block. -/
theorem applyExcept_spec (q : String) (outs : GenOutcomes) (t : TryResult) :
    (applyExcept q outs t).raised = t.raised ∧
      (t.raised = false → applyExcept q outs t = t) ∧
      (t.raised = true → t.dec.backend ≠ .CLAUDE → t.st.claude.isSome = true →
        (applyExcept q outs t).dec.backend = .CLAUDE ∧
          (applyExcept q outs t).prod = .claudeP) ∧
      (t.raised = true → ¬(t.dec.backend ≠ .CLAUDE ∧ t.st.claude.isSome = true) →
        applyExcept q outs t = t) := by
  unfold applyExcept
  split_ifs with h1 h2
  · rcases hc : t.st.claude with _ | hcl
    · rw [hc] at h2
      simp at h2
    · dsimp only
      refine ⟨h1.symm, ?_, fun _ _ _ => ⟨rfl, rfl⟩, fun _ hn => absurd ⟨h2.1, rfl⟩ hn⟩
      intro hf
      rw [h1] at hf
      exact absurd hf (by simp)
  · exact ⟨rfl, fun _ => rfl, fun _ hnc hcs => absurd ⟨hnc, hcs⟩ h2, fun _ _ => rfl⟩
  · exact ⟨rfl, fun _ => rfl, fun hr => absurd hr (by simp_all), fun _ _ => rfl⟩

/-- The returned `GenResult` in terms of the post-`except` `TryResult`. -/
theorem generate_response_fields (r : AIRouter) (o : HealthOracle) (outs : GenOutcomes)
    (q : String) :
    (generate_response r o outs q).decision =
        (applyExcept q outs (dispatch r q outs (route r o q))).dec ∧
      (generate_response r o outs q).raised =
        (applyExcept q outs (dispatch r q outs (route r o q))).raised ∧
      (generate_response r o outs q).st =
        (applyExcept q outs (dispatch r q outs (route r o q))).st ∧
      (((applyExcept q outs (dispatch r q outs (route r o q))).resp = "" ∧
          (generate_response r o outs q).text = apologyText ∧
          (generate_response r o outs q).producer = .apologyP) ∨
        ((generate_response r o outs q).text =
            (applyExcept q outs (dispatch r q outs (route r o q))).resp ∧
          (generate_response r o outs q).producer =
            (applyExcept q outs (dispatch r q outs (route r o q))).prod ∧
          (applyExcept q outs (dispatch r q outs (route r o q))).resp ≠ "")) := by
  unfold generate_response
  dsimp only
  split_ifs with h
  · exact ⟨rfl, rfl, rfl, Or.inl ⟨h, rfl, rfl⟩⟩
  · exact ⟨rfl, rfl, rfl, Or.inr ⟨rfl, rfl, h⟩⟩

/-- The router's public result text is never the empty string. -/
theorem generate_response_text_ne (r : AIRouter) (o : HealthOracle) (outs : GenOutcomes)
    (q : String) : (generate_response r o outs q).text ≠ "" := by
  rcases (generate_response_fields r o outs q).2.2.2 with h | h
  · rw [h.2.1]
    decide
  · rw [h.1]
    exact h.2.2

/-- The final decision's backend is the routed backend or one of the two
fallback replacements. -/
theorem generate_response_backend_cases (r : AIRouter) (o : HealthOracle) (outs : GenOutcomes)
    (q : String) :
    (generate_response r o outs q).decision.backend = (route r o q).backend ∨
      (generate_response r o outs q).decision.backend = .CLAUDE ∨
      (generate_response r o outs q).decision.backend = .OLLAMA_CHAT := by
  obtain ⟨hdec, hrai, hst, htext⟩ := generate_response_fields r o outs q
  have hds := dispatch_spec r q outs (route r o q) _ rfl (route_backend_not_hybrid_edge r o q).1
  have has := applyExcept_spec q outs (dispatch r q outs (route r o q))
  rw [hdec]
  cases hr : (dispatch r q outs (route r o q)).raised
  · rw [has.2.1 hr]
    rcases (hds.2 hr).1 with hdd | hc | ho
    · rw [hdd]
      exact Or.inl rfl
    · exact Or.inr (Or.inl hc.1)
    · exact Or.inr (Or.inr ho.1)
  · by_cases hcond : ((dispatch r q outs (route r o q)).dec.backend ≠ .CLAUDE ∧
        (dispatch r q outs (route r o q)).st.claude.isSome = true)
    · exact Or.inr (Or.inl (has.2.2.1 hr hcond.1 hcond.2).1)
    · rw [has.2.2.2 hr hcond, (hds.1 hr).1]
      exact Or.inl rfl

/-- Unless the apology was substituted, the producing adapter matches the
final decision's backend (the hybrid key corresponding to Ollama). -/
theorem generate_response_producer_spec (r : AIRouter) (o : HealthOracle) (outs : GenOutcomes)
    (q : String) :
    (generate_response r o outs q).text = apologyText ∨
      (((generate_response r o outs q).decision.backend = .HYBRID →
          (generate_response r o outs q).producer = .ollamaP) ∧
        ((generate_response r o outs q).decision.backend = .CLAUDE →
          (generate_response r o outs q).producer = .claudeP) ∧
        (((generate_response r o outs q).decision.backend = .OLLAMA_FAST ∨
            (generate_response r o outs q).decision.backend = .OLLAMA_CHAT ∨
            (generate_response r o outs q).decision.backend = .OLLAMA_SMART) →
          (generate_response r o outs q).producer = .ollamaP)) := by
  obtain ⟨hdec, hrai, hst, htext⟩ := generate_response_fields r o outs q
  have hds := dispatch_spec r q outs (route r o q) _ rfl (route_backend_not_hybrid_edge r o q).1
  have has := applyExcept_spec q outs (dispatch r q outs (route r o q))
  rcases htext with hap | hok
  · exact Or.inl hap.2.1
  · right
    rw [hdec, hok.2.1]
    cases hr : (dispatch r q outs (route r o q)).raised
    · rw [has.2.1 hr]
      have h2 := hds.2 hr
      exact ⟨fun hb => (h2.2.1 hb).1, h2.2.2.1, h2.2.2.2⟩
    · by_cases hcond : ((dispatch r q outs (route r o q)).dec.backend ≠ .CLAUDE ∧
          (dispatch r q outs (route r o q)).st.claude.isSome = true)
      · obtain ⟨hcb, hcp⟩ := has.2.2.1 hr hcond.1 hcond.2
        rw [hcb, hcp]
        exact ⟨fun hb => absurd hb (by simp), fun _ => rfl, fun hb => absurd hb (by simp)⟩
      · have ht2 := has.2.2.2 hr hcond
        rw [ht2] at hok ⊢
        obtain ⟨hd0, hcl, hdisj⟩ := hds.1 hr
        rcases hdisj with he | ⟨hp, hne2, hbH⟩
        · exact absurd he hok.2.2
        · rw [hp, hbH]
          exact ⟨fun _ => rfl, fun hb => absurd hb (by simp), fun hb => by simp at hb⟩

/-! ## Router claim theorems -/

/-- C1 (amended): after `generate_response`, the backend field never names
`HYBRID_EDGE`; it names `HYBRID` only for a query routed with the hybrid
intent whose returned nonempty text was produced by the Ollama primary
itself — possibly a short, degenerate response when no Claude adapter was
available to fall back to — or whose text is the substituted fixed apology;
in particular the backend is never `HYBRID` when the Claude fallback
produced the text.  (The original claim fails: on hybrid success the
decision is not replaced, so the backend can remain the hybrid-intent
value.) -/
theorem C1_hybrid_backend_amended (r : AIRouter) (o : HealthOracle) (outs : GenOutcomes)
    (q : String) :
    (generate_response r o outs q).decision.backend ≠ .HYBRID_EDGE ∧
      ((generate_response r o outs q).decision.backend = .HYBRID →
        (route r o q).backend = .HYBRID ∧
          (((generate_response r o outs q).producer = .ollamaP ∧
              (generate_response r o outs q).text ≠ "") ∨
            (generate_response r o outs q).text = apologyText)) := by
  constructor
  · rcases generate_response_backend_cases r o outs q with h | h | h <;> rw [h]
    · exact (route_backend_not_hybrid_edge r o q).1
    · simp
    · simp
  · intro hH
    constructor
    · rcases generate_response_backend_cases r o outs q with h | h | h
      · rw [← h]
        exact hH
      · rw [h] at hH
        exact absurd hH (by simp)
      · rw [h] at hH
        exact absurd hH (by simp)
    · rcases generate_response_producer_spec r o outs q with hap | hspec
      · exact Or.inr hap
      · exact Or.inl ⟨hspec.1 hH, generate_response_text_ne r o outs q⟩

/-- C1 counterexample: with Ollama and Claude configured and healthy,
`prefer_local` set, a complex query routed to `HYBRID` whose Ollama primary
answers with sufficient text leaves the returned decision's backend at the
hybrid-intent value `HYBRID`, produced by the Ollama adapter. -/
theorem C1_counterexample :
    (generate_response ⟨some [], some [], none, true, false⟩ ⟨true, true⟩
        ⟨.ok "Certainly, here is the detail.", .fail, .ok [], .ok [], .fail⟩
        "please explain the invoice").decision.backend = .HYBRID ∧
      (generate_response ⟨some [], some [], none, true, false⟩ ⟨true, true⟩
        ⟨.ok "Certainly, here is the detail.", .fail, .ok [], .ok [], .fail⟩
        "please explain the invoice").producer = .ollamaP ∧
      (generate_response ⟨some [], some [], none, true, false⟩ ⟨true, true⟩
        ⟨.ok "Certainly, here is the detail.", .fail, .ok [], .ok [], .fail⟩
        "please explain the invoice").text = "Certainly, here is the detail." := by
  decide

/-- C1 witness: the amended theorem applied at the hybrid-success world. -/
theorem C1_hybrid_backend_amended_witness :
    (generate_response ⟨some [], some [], none, true, false⟩ ⟨true, true⟩
        ⟨.ok "Certainly, here is the detail.", .fail, .ok [], .ok [], .fail⟩
        "please explain the invoice").decision.backend ≠ .HYBRID_EDGE ∧
      ((route ⟨some [], some [], none, true, false⟩ ⟨true, true⟩
          "please explain the invoice").backend = .HYBRID ∧
        (((generate_response ⟨some [], some [], none, true, false⟩ ⟨true, true⟩
              ⟨.ok "Certainly, here is the detail.", .fail, .ok [], .ok [], .fail⟩
              "please explain the invoice").producer = .ollamaP ∧
            (generate_response ⟨some [], some [], none, true, false⟩ ⟨true, true⟩
              ⟨.ok "Certainly, here is the detail.", .fail, .ok [], .ok [], .fail⟩
              "please explain the invoice").text ≠ "") ∨
          (generate_response ⟨some [], some [], none, true, false⟩ ⟨true, true⟩
            ⟨.ok "Certainly, here is the detail.", .fail, .ok [], .ok [], .fail⟩
            "please explain the invoice").text = apologyText)) :=
  ⟨(C1_hybrid_backend_amended ⟨some [], some [], none, true, false⟩ ⟨true, true⟩
      ⟨.ok "Certainly, here is the detail.", .fail, .ok [], .ok [], .fail⟩
      "please explain the invoice").1,
   (C1_hybrid_backend_amended ⟨some [], some [], none, true, false⟩ ⟨true, true⟩
      ⟨.ok "Certainly, here is the detail.", .fail, .ok [], .ok [], .fail⟩
      "please explain the invoice").2 (by decide)⟩

/-- C6 (amended): `generate_response` never returns an empty string and
never lets an exception escape; on an adapter-call exception, when the
routed backend was not Claude and Claude is configured, it retries once
against Claude and the returned decision names Claude; when no Claude
adapter exists, the result is the fixed apology string — or, when the
hybrid primary had already produced nonempty (short) text, that text is
returned as-is with the hybrid decision.  (The original claim fails in the
latter corner: it promises the apology.) -/
theorem C6_exception_handling_amended (r : AIRouter) (o : HealthOracle) (outs : GenOutcomes)
    (q : String) :
    (generate_response r o outs q).text ≠ "" ∧
      ((generate_response r o outs q).raised = true → (route r o q).backend ≠ .CLAUDE →
        r.claude.isSome = true → (generate_response r o outs q).decision.backend = .CLAUDE) ∧
      ((generate_response r o outs q).raised = true → r.claude.isSome = false →
        ((generate_response r o outs q).text = apologyText ∨
          ((generate_response r o outs q).producer = .ollamaP ∧
            (generate_response r o outs q).decision.backend = .HYBRID))) := by
  obtain ⟨hdec, hrai, hst, htext⟩ := generate_response_fields r o outs q
  have hds := dispatch_spec r q outs (route r o q) _ rfl (route_backend_not_hybrid_edge r o q).1
  have has := applyExcept_spec q outs (dispatch r q outs (route r o q))
  refine ⟨generate_response_text_ne r o outs q, ?_, ?_⟩
  · intro hr hnc hcs
    rw [hrai, has.1] at hr
    obtain ⟨hd0, hcl, _⟩ := hds.1 hr
    have hres := has.2.2.1 hr (by rw [hd0]; exact hnc) (by rw [hcl]; exact hcs)
    rw [hdec]
    exact hres.1
  · intro hr hcf
    rw [hrai, has.1] at hr
    obtain ⟨hd0, hcl, hdisj⟩ := hds.1 hr
    have hnr : ¬((dispatch r q outs (route r o q)).dec.backend ≠ .CLAUDE ∧
        (dispatch r q outs (route r o q)).st.claude.isSome = true) := by
      intro hcon
      have h2 := hcon.2
      rw [hcl, hcf] at h2
      exact absurd h2 (by simp)
    have ht2 := has.2.2.2 hr hnr
    rcases htext with hap | hok
    · exact Or.inl hap.2.1
    · rcases hdisj with he | ⟨hp, hne2, hbH⟩
      · exfalso
        apply hok.2.2
        rw [ht2]
        exact he
      · refine Or.inr ⟨?_, ?_⟩
        · rw [hok.2.1, ht2]
          exact hp
        · rw [hdec, ht2]
          exact hbH

/-- C6 counterexample: Ollama and Gateway configured, no Claude adapter; the
complex query routes to `HYBRID`, Ollama answers "hi" (nonempty but shorter
than 5), the Claude fallback call raises (no adapter), and the router
returns "hi" — not the fixed apology the claim promises for an exception
with no Claude adapter. -/
theorem C6_counterexample :
    (generate_response ⟨some [], none, some [], true, false⟩ ⟨true, true⟩
        ⟨.ok "hi", .fail, .ok [], .ok [], .fail⟩ "please explain the invoice").raised = true ∧
      (generate_response ⟨some [], none, some [], true, false⟩ ⟨true, true⟩
        ⟨.ok "hi", .fail, .ok [], .ok [], .fail⟩ "please explain the invoice").text = "hi" ∧
      (generate_response ⟨some [], none, some [], true, false⟩ ⟨true, true⟩
        ⟨.ok "hi", .fail, .ok [], .ok [], .fail⟩ "please explain the invoice").text ≠
        apologyText := by
  decide

/-- C6 witness: a raised exception (Ollama unconfigured but routed) with
Claude configured resolves to a Claude-backed nonempty answer. -/
theorem C6_exception_handling_amended_witness :
    (generate_response ⟨none, some [], some [], true, false⟩ ⟨true, true⟩
        ⟨.fail, .fail, .ok [], .ok ["Hello!"], .fail⟩ "hi").text ≠ "" ∧
      (generate_response ⟨none, some [], some [], true, false⟩ ⟨true, true⟩
        ⟨.fail, .fail, .ok [], .ok ["Hello!"], .fail⟩ "hi").decision.backend = .CLAUDE :=
  ⟨(C6_exception_handling_amended ⟨none, some [], some [], true, false⟩ ⟨true, true⟩
      ⟨.fail, .fail, .ok [], .ok ["Hello!"], .fail⟩ "hi").1,
   (C6_exception_handling_amended ⟨none, some [], some [], true, false⟩ ⟨true, true⟩
      ⟨.fail, .fail, .ok [], .ok ["Hello!"], .fail⟩ "hi").2.1 (by decide) (by decide)
     (by decide)⟩

theorem trimHistory_eq_of_le {l : History} (hl : l.length ≤ MAX_CONVERSATION_LENGTH) :
    trimHistory l = l := by
  unfold trimHistory
  rw [if_neg (by omega)]

/-- C3 (amended): on a transient provider failure (rate limit, connection
error, API error) the Claude adapter rolls the just-appended user turn back
and returns a fixed nonempty message, while the Ollama and Gateway adapters
return the empty string and retain the dangling user turn (no rollback);
router-level fallback to another backend happens only on the hybrid path or
on an exception, yet the caller always receives nonempty text.  (The
original claim fails: it promises rollback and an alternate backend for
every adapter.) -/
theorem C3_transient_failure_amended :
    (∀ (h : History) (msg : String) (out : ClaudeOutcome),
        (out = .rateLimit ∨ out = .connErr ∨ out = .apiErr) → pyStripStr msg ≠ "" →
        h.length < MAX_CONVERSATION_LENGTH →
        (claudeGenerate h msg out).2 = h ∧ (claudeGenerate h msg out).1 ≠ "") ∧
      (∀ (h : History) (msg : String),
        ollamaGenerate h msg .fail = ("", h ++ [⟨.user, msg⟩])) ∧
      (∀ (h : History) (msg : String),
        gatewayGenerate h msg .fail = ("", h ++ [⟨.user, msg⟩])) ∧
      (∀ (r : AIRouter) (o : HealthOracle) (outs : GenOutcomes) (q : String),
        (generate_response r o outs q).text ≠ "") := by
  refine ⟨?_, fun h msg => rfl, fun h msg => rfl,
    fun r o outs q => generate_response_text_ne r o outs q⟩
  intro h msg out hout hblank hlen
  have htr : trimHistory (h ++ [⟨Role.user, pyStripStr msg⟩]) =
      h ++ [⟨Role.user, pyStripStr msg⟩] :=
    trimHistory_eq_of_le (by simp only [List.length_append, List.length_singleton]; omega)
  have hrb : rollbackUserMessage (h ++ [⟨Role.user, pyStripStr msg⟩]) = h := by
    unfold rollbackUserMessage
    rw [List.getLast?_concat]
    simp [List.dropLast_concat]
  unfold claudeGenerate
  rw [if_neg hblank]
  rcases hout with h1 | h1 | h1 <;> subst h1 <;> dsimp only <;> rw [htr, hrb] <;>
    exact ⟨rfl, by decide⟩

/-- C3 counterexample: Ollama and Claude healthy, a moderate query routed to
`OLLAMA_CHAT`; the Ollama call times out.  The dangling user turn stays in
the Ollama transcript (no rollback), no alternate backend is tried (the
decision remains `OLLAMA_CHAT`) and the apology is substituted. -/
theorem C3_counterexample :
    (generate_response ⟨some [], some [], none, true, false⟩ ⟨true, true⟩
        ⟨.fail, .fail, .ok [], .ok [], .fail⟩ "check on my order status").st.ollama =
        some [⟨.user, "check on my order status"⟩] ∧
      (generate_response ⟨some [], some [], none, true, false⟩ ⟨true, true⟩
        ⟨.fail, .fail, .ok [], .ok [], .fail⟩ "check on my order status").decision.backend =
        .OLLAMA_CHAT ∧
      (generate_response ⟨some [], some [], none, true, false⟩ ⟨true, true⟩
        ⟨.fail, .fail, .ok [], .ok [], .fail⟩ "check on my order status").text =
        apologyText := by
  decide

/-- C3 witness: a Claude connection error rolls the transcript back and
returns nonempty text. -/
theorem C3_transient_failure_amended_witness :
    (claudeGenerate [⟨.user, "a"⟩, ⟨.assistant, "b"⟩] "hello" .connErr).2 =
        [⟨.user, "a"⟩, ⟨.assistant, "b"⟩] ∧
      (claudeGenerate [⟨.user, "a"⟩, ⟨.assistant, "b"⟩] "hello" .connErr).1 ≠ "" :=
  C3_transient_failure_amended.1 [⟨.user, "a"⟩, ⟨.assistant, "b"⟩] "hello" .connErr
    (Or.inr (Or.inl rfl)) (by decide) (by decide)

/-- C2 (amended): `process_speech` increments the counter keyed by the
*returned decision's* backend.  Under the `PhoneAssistant` configuration
(no gateway adapter) that backend is one of the tracked kinds, and for each
non-hybrid kind the keyed adapter is the one that produced the text (or the
apology was substituted); but a query resolved by the hybrid primary keeps
backend `HYBRID` and increments the `hybrid_fallback` counter even though
the Ollama adapter produced the text.  (The original claim fails on that
hybrid-success path.) -/
theorem C2_usage_counter_amended (r : AIRouter) (o : HealthOracle) (outs : GenOutcomes)
    (q : String) (s : Stats) (hgw : r.gateway = none) :
    (process_speech_stats r o outs q s).1 =
        track_backend_usage { s with total_queries := s.total_queries + 1 }
          (generate_response r o outs q).decision.backend ∧
      (generate_response r o outs q).decision.backend ≠ .GATEWAY_FAST ∧
      (generate_response r o outs q).decision.backend ≠ .GATEWAY_SMART ∧
      (generate_response r o outs q).decision.backend ≠ .HYBRID_EDGE ∧
      ((generate_response r o outs q).decision.backend = .HYBRID →
        ((generate_response r o outs q).producer = .ollamaP ∧
            (generate_response r o outs q).text ≠ "") ∨
          (generate_response r o outs q).text = apologyText) ∧
      ((generate_response r o outs q).decision.backend = .CLAUDE →
        (generate_response r o outs q).producer = .claudeP ∨
          (generate_response r o outs q).text = apologyText) ∧
      (((generate_response r o outs q).decision.backend = .OLLAMA_FAST ∨
          (generate_response r o outs q).decision.backend = .OLLAMA_CHAT) →
        (generate_response r o outs q).producer = .ollamaP ∨
          (generate_response r o outs q).text = apologyText) := by
  have hbc := generate_response_backend_cases r o outs q
  have hng := route_no_gateway r o q hgw
  have hne := route_backend_not_hybrid_edge r o q
  have hps := generate_response_producer_spec r o outs q
  refine ⟨rfl, ?_, ?_, ?_, ?_, ?_, ?_⟩
  · rcases hbc with h | h | h <;> rw [h]
    · exact hng.1
    · simp
    · simp
  · rcases hbc with h | h | h <;> rw [h]
    · exact hng.2
    · simp
    · simp
  · rcases hbc with h | h | h <;> rw [h]
    · exact hne.1
    · simp
    · simp
  · intro hH
    rcases hps with hap | hspec
    · exact Or.inr hap
    · exact Or.inl ⟨hspec.1 hH, generate_response_text_ne r o outs q⟩
  · intro hC
    rcases hps with hap | hspec
    · exact Or.inr hap
    · exact Or.inl (hspec.2.1 hC)
  · intro hO
    rcases hps with hap | hspec
    · exact Or.inr hap
    · refine Or.inl (hspec.2.2 ?_)
      rcases hO with h | h
      · exact Or.inl h
      · exact Or.inr (Or.inl h)

/-- C2 counterexample: the hybrid-success query of C1 run through the stats
tracking — the Ollama adapter produced the text, yet the incremented
counter is `hybrid_fallback`, keyed by the original hybrid intent, and all
Ollama counters stay 0. -/
theorem C2_counterexample :
    (process_speech_stats ⟨some [], some [], none, true, false⟩ ⟨true, true⟩
        ⟨.ok "Certainly, here is the detail.", .fail, .ok [], .ok [], .fail⟩
        "please explain the invoice" Stats.init).1 = ⟨1, 0, 0, 0, 0, 1⟩ ∧
      (generate_response ⟨some [], some [], none, true, false⟩ ⟨true, true⟩
        ⟨.ok "Certainly, here is the detail.", .fail, .ok [], .ok [], .fail⟩
        "please explain the invoice").producer = .ollamaP ∧
      (generate_response ⟨some [], some [], none, true, false⟩ ⟨true, true⟩
        ⟨.ok "Certainly, here is the detail.", .fail, .ok [], .ok [], .fail⟩
        "please explain the invoice").decision.backend = .HYBRID := by
  decide

/-- C2 witness: the amended theorem applied at a world where the Claude
fallback fires (Ollama times out on the hybrid path), so the `claude`
counter is the one incremented and Claude produced the text. -/
theorem C2_usage_counter_amended_witness :
    (process_speech_stats ⟨some [], some [], none, true, false⟩ ⟨true, true⟩
        ⟨.fail, .fail, .ok [], .ok ["Sure."], .fail⟩ "please explain the invoice"
        Stats.init).1 =
        track_backend_usage { Stats.init with total_queries := 1 }
          (generate_response ⟨some [], some [], none, true, false⟩ ⟨true, true⟩
            ⟨.fail, .fail, .ok [], .ok ["Sure."], .fail⟩
            "please explain the invoice").decision.backend ∧
      ((generate_response ⟨some [], some [], none, true, false⟩ ⟨true, true⟩
          ⟨.fail, .fail, .ok [], .ok ["Sure."], .fail⟩
          "please explain the invoice").producer = .claudeP ∨
        (generate_response ⟨some [], some [], none, true, false⟩ ⟨true, true⟩
          ⟨.fail, .fail, .ok [], .ok ["Sure."], .fail⟩
          "please explain the invoice").text = apologyText) :=
  ⟨(C2_usage_counter_amended ⟨some [], some [], none, true, false⟩ ⟨true, true⟩
      ⟨.fail, .fail, .ok [], .ok ["Sure."], .fail⟩ "please explain the invoice"
      Stats.init rfl).1,
   (C2_usage_counter_amended ⟨some [], some [], none, true, false⟩ ⟨true, true⟩
      ⟨.fail, .fail, .ok [], .ok ["Sure."], .fail⟩ "please explain the invoice"
      Stats.init rfl).2.2.2.2.2.1 (by decide)⟩

end PhoneAsst
